import Mathlib

/-!
# koreader-sync: verification of the offline-tolerant sync subsystem

Shallow embedding of the repository's code:

* `src/worker.js` — the current Cloudflare worker: `withAuth`, the
  `POST /sync-stats` route and `handleSyncStats` (book upsert,
  `INSERT OR IGNORE` of `page_stat_data` rows, aggregate recompute,
  `sync_state` upsert).
* `src/unnamed/part_000` — the earlier `/events` worker: `cleanIsbn`,
  `generateBookId`, `handleUpdate` (books / reading_status / sessions /
  page_events tables of `src/schema.sql`).
* `src/readingstatus.koplugin/main.lua` (second, offline-queue version):
  `enqueueEvent`, `flushQueue`, `sendEventsToServer`, `onReaderReady`,
  `onPageUpdate`, `syncStatus` with the `MIN_SYNC_GAP` throttle.

JavaScript truthiness (`x || d`, `!x`), SQL `NULL` comparison semantics and
32-bit `|0` wrapping are made explicit below.  Database tables are lists of
rows; the handlers are pure state transformers returning `Except` for the
thrown-and-caught-as-400 paths.
-/

/-- JS truthiness for an optional string: `undefined`/`null` and `""` are falsy. -/
def jsTruthyStr : Option String → Bool
  | none => false
  | some s => !(s == "")

/-- JS `x || null` on an optional string: falsy (absent or empty) collapses to null. -/
def jsOrNullStr (o : Option String) : Option String :=
  if jsTruthyStr o then o else none

/-- JS `x || 0` on an optional integer: `undefined`/`null` (and `0`) give `0`. -/
def jsOrZeroInt : Option Int → Int
  | none => 0
  | some n => n

/-- JS `x || null` on an optional integer: `undefined`/`null` and `0` give null. -/
def jsOrNullInt : Option Int → Option Int
  | none => none
  | some n => if n == 0 then none else some n

/-- JS `x || d` on an optional integer with default `d` (0 is falsy). -/
def jsOrElseInt (o : Option Int) (d : Int) : Int :=
  match o with
  | none => d
  | some n => if n == 0 then d else n

/-- Wrap an integer to the signed 32-bit range, as JS `| 0` does. -/
def toInt32 (n : Int) : Int :=
  (n + 2 ^ 31) % 2 ^ 32 - 2 ^ 31

/-- The UTF-16 code unit JS `charCodeAt(0)` returns for a code point spread
out of a string: the code point itself on the BMP, the high surrogate above it. -/
def charCodeUnit (c : Char) : Nat :=
  if c.toNat < 65536 then c.toNat else 55296 + (c.toNat - 65536) / 1024

/-- One step of the `generateBookId` fold: `((h << 5) - h + code) | 0`
(the shift wraps to 32 bits first, as in JS). -/
def jsHashStep (h : Int) (code : Nat) : Int :=
  toInt32 (toInt32 (h * 32) - h + code)

/-- The `generateBookId` string hash: fold `jsHashStep` over the code units, seed 0. -/
def jsHash (s : String) : Int :=
  s.data.foldl (fun h c => jsHashStep h (charCodeUnit c)) 0

/-- Lower-case hex digit, as JS `Number.prototype.toString(16)` uses. -/
def hexChar (n : Nat) : Char :=
  if n < 10 then Char.ofNat (48 + n) else Char.ofNat (87 + n)

/-- Hex digit list of `n`, most significant first, accumulated in `acc`. -/
def toHexAux (n : Nat) (acc : List Char) : List Char :=
  if h : n = 0 then acc
  else toHexAux (n / 16) (hexChar (n % 16) :: acc)
termination_by n
decreasing_by exact Nat.div_lt_self (Nat.pos_of_ne_zero h) (by decide)

/-- JS `n.toString(16)` for a natural number. -/
def toHex (n : Nat) : String :=
  if n = 0 then "0" else String.mk (toHexAux n [])

/-- `src/unnamed/part_000` `cleanIsbn`: strip hyphens and whitespace; an
absent ISBN, or one that strips to the empty string, becomes null. -/
def cleanIsbn : Option String → Option String
  | none => none
  | some s =>
    let t := String.mk (s.data.filter (fun c => !(c == '-' || c.isWhitespace)))
    if t == "" then none else some t

/-- `src/unnamed/part_000` `generateBookId`: the ISBN when truthy, otherwise
`book_` followed by the hex of `Math.abs` of the 32-bit hash of the
lower-cased `title:author` string (absent title/author read as `""`). -/
def generateBookId (isbn title author : Option String) : String :=
  match isbn with
  | some s =>
    if s == "" then
      "book_" ++ toHex (jsHash ((title.getD "" ++ ":" ++ author.getD "").toLower)).natAbs
    else s
  | none =>
    "book_" ++ toHex (jsHash ((title.getD "" ++ ":" ++ author.getD "").toLower)).natAbs

/-! ## `src/worker.js`: the `/sync-stats` worker -/

/-- A row of the `book` table used by `handleSyncStats`. -/
structure SyncBook where
  id : Nat
  title : String
  authors : Option String
  pages : Option Int
  md5 : String
  cover_url : Option String
  last_open : Int
  total_read_pages : Int
  total_read_time : Int
deriving DecidableEq

/-- A row of the `page_stat_data` table. -/
structure PageStatRow where
  id_book : Nat
  page : Int
  start_time : Int
  duration : Int
  total_pages : Option Int
deriving DecidableEq

/-- A row of the `sync_state` table (`book_md5` is its primary key). -/
structure SyncStateRow where
  book_md5 : String
  last_sync_time : Int
deriving DecidableEq

/-- The D1 database of the `/sync-stats` worker.  `next_row_id` models the
autoincrement id that `result.meta.last_row_id` reports after a book insert. -/
structure SyncDB where
  books : List SyncBook
  page_stat_data : List PageStatRow
  sync_state : List SyncStateRow
  next_row_id : Nat
deriving DecidableEq

/-- One element of the `page_stats` array of a `/sync-stats` request body. -/
structure PageStat where
  page : Int
  start_time : Int
  duration : Int
  total_pages : Option Int
deriving DecidableEq

/-- The `book` object of a `/sync-stats` request body. -/
structure BookPayload where
  md5 : Option String
  title : Option String
  authors : Option String
  pages : Option Int
deriving DecidableEq

/-- A `/sync-stats` request body. -/
structure SyncData where
  book : Option BookPayload
  page_stats : Option (List PageStat)
  last_sync_time : Option Int
deriving DecidableEq

/-- `SELECT id, cover_url FROM book WHERE md5 = ?` (first match). -/
def findBookByMd5 (books : List SyncBook) (md5 : String) : Option SyncBook :=
  books.find? (fun b => b.md5 == md5)

/-- Modelled from the spec: the D1 schema of the `page_stat_data` table used
by `handleSyncStats` is not under src/ (src/schema.sql is the older
`/events` schema), and the spec states that `(book, page, timestamp)` is
unique — the key `INSERT OR IGNORE` consults.  This predicate decides
whether a row with that key is already present. -/
def pageKeyPresent (rows : List PageStatRow) (idb : Nat) (p t : Int) : Bool :=
  rows.any (fun r => r.id_book == idb && r.page == p && r.start_time == t)

/-- `INSERT OR IGNORE INTO page_stat_data`: append the row unless its
`(id_book, page, start_time)` key is already present. -/
def insertOrIgnorePageStat (rows : List PageStatRow) (idb : Nat) (s : PageStat) :
    List PageStatRow :=
  if pageKeyPresent rows idb s.page s.start_time then rows
  else rows ++ [{ id_book := idb, page := s.page, start_time := s.start_time,
                  duration := s.duration, total_pages := s.total_pages }]

/-- The `db.batch` of `INSERT OR IGNORE` statements over a `page_stats` array. -/
def insertPageStats (rows : List PageStatRow) (idb : Nat) (stats : List PageStat) :
    List PageStatRow :=
  stats.foldl (fun acc s => insertOrIgnorePageStat acc idb s) rows

/-- `SELECT COUNT(DISTINCT page), COALESCE(SUM(duration), 0) FROM page_stat_data
WHERE id_book = ?`. -/
def computeTotals (rows : List PageStatRow) (idb : Nat) : Int × Int :=
  let mine := rows.filter (fun r => r.id_book == idb)
  (((mine.map PageStatRow.page).dedup).length, mine.foldl (fun a r => a + r.duration) 0)

/-- `UPDATE book SET total_read_pages = ?, total_read_time = ? WHERE id = ?`. -/
def updateBookTotals (books : List SyncBook) (idb : Nat) (trp trt : Int) :
    List SyncBook :=
  books.map (fun b =>
    if b.id == idb then { b with total_read_pages := trp, total_read_time := trt } else b)

/-- `INSERT INTO sync_state ... ON CONFLICT(book_md5) DO UPDATE SET last_sync_time`. -/
def upsertSyncState (ss : List SyncStateRow) (md5 : String) (t : Int) :
    List SyncStateRow :=
  if ss.any (fun r => r.book_md5 == md5) then
    ss.map (fun r => if r.book_md5 == md5 then { r with last_sync_time := t } else r)
  else ss ++ [{ book_md5 := md5, last_sync_time := t }]

/-- `Math.max(...page_stats.map(s => s.start_time))` for a nonempty array. -/
def maxStartTime : List PageStat → Int
  | [] => 0
  | s :: rest => rest.foldl (fun m x => max m x.start_time) s.start_time

/-- `src/worker.js` `handleSyncStats`.  `now` is `Math.floor(Date.now() / 1000)`
and `fetchedCover` the result of the external `fetchCoverUrl` call (both are
effects, passed in as parameters).  A thrown validation error is `Except.error`,
which the route turns into HTTP 400. -/
def handleSyncStats (db : SyncDB) (data : SyncData) (now : Int)
    (fetchedCover : Option String) : Except String SyncDB :=
  match data.book with
  | none => Except.error "book.md5 is required"
  | some book =>
    if jsTruthyStr book.md5 = false then Except.error "book.md5 is required"
    else if jsTruthyStr book.title = false then Except.error "book.title is required"
    else
      let md5 := book.md5.getD ""
      let existing := findBookByMd5 db.books md5
      let step1 : List SyncBook × Nat × Nat :=
        match existing with
        | none =>
          (db.books ++ [{ id := db.next_row_id, title := book.title.getD "",
                          authors := jsOrNullStr book.authors,
                          pages := jsOrNullInt book.pages, md5 := md5,
                          cover_url := fetchedCover, last_open := now,
                          total_read_pages := 0, total_read_time := 0 }],
           db.next_row_id, db.next_row_id + 1)
        | some b =>
          (db.books.map (fun bb =>
            if bb.id == b.id then
              { bb with last_open := now,
                        pages := match jsOrNullInt book.pages with
                                 | none => bb.pages
                                 | some p => some p }
            else bb),
           b.id, db.next_row_id)
      let books1 := step1.1
      let bookId := step1.2.1
      let nextId := step1.2.2
      let step2 : List PageStatRow × List SyncBook :=
        match data.page_stats with
        | some stats =>
          if stats.length > 0 then
            let rows := insertPageStats db.page_stat_data bookId stats
            let t := computeTotals rows bookId
            (rows, updateBookTotals books1 bookId t.1 t.2)
          else (db.page_stat_data, books1)
        | none => (db.page_stat_data, books1)
      let newSyncTime :=
        match data.page_stats with
        | some stats =>
          if stats.length > 0 then maxStartTime stats
          else jsOrElseInt data.last_sync_time now
        | none => jsOrElseInt data.last_sync_time now
      Except.ok { books := step2.2, page_stat_data := step2.1,
                  sync_state := upsertSyncState db.sync_state md5 newSyncTime,
                  next_row_id := nextId }

/-- The worker environment: `env.AUTH_TOKEN` (a secret binding, possibly unset). -/
structure Env where
  AUTH_TOKEN : Option String
deriving DecidableEq

/-- The guard of `withAuth` in `src/worker.js`: the request goes through only
when `env.AUTH_TOKEN` is truthy and the `Authorization` header strictly equals
`Bearer ` followed by the token (`null !== string` for a missing header). -/
def withAuthCheck (env : Env) (authHeader : Option String) : Bool :=
  match env.AUTH_TOKEN with
  | none => false
  | some t => !(t == "") && authHeader == some ("Bearer " ++ t)

/-- The `POST /sync-stats` route of `src/worker.js` fetch: `withAuth` wraps a
handler whose catch clause maps any `handleSyncStats` throw to HTTP 400.
Returns the HTTP status and the database after the request. -/
def syncStatsRoute (env : Env) (authHeader : Option String) (db : SyncDB)
    (data : SyncData) (now : Int) (fetchedCover : Option String) : Nat × SyncDB :=
  if withAuthCheck env authHeader then
    match handleSyncStats db data now fetchedCover with
    | Except.ok db2 => (200, db2)
    | Except.error _ => (400, db)
  else (401, db)

/-! ## `src/readingstatus.koplugin/main.lua` (offline-queue version) -/

/-- `MIN_SYNC_GAP = 5` — minimum seconds between non-forced syncs. -/
def MIN_SYNC_GAP : Int := 5

/-- The payload table built by `syncStatus` and queued by `attemptSync`. -/
structure LuaPayload where
  title : String
  author : String
  isbn : Option String
  current_page : Nat
  total_pages : Nat
  progress : Int
  session_id : Option String
  event_type : String
deriving DecidableEq

/-- The module-level mutable state of the plugin: `last_sync_time`,
`current_session_id`, `max_page_reached`. -/
structure ReaderState where
  last_sync_time : Int
  current_session_id : Option String
  max_page_reached : Nat
deriving DecidableEq

/-- The plugin's initial module state (`last_sync_time = 0`, no session,
`max_page_reached = 0`). -/
def initialReaderState : ReaderState :=
  { last_sync_time := 0, current_session_id := none, max_page_reached := 0 }

/-- What `syncStatus` reads from the open document: `doc_props`, the
`percent_finished` setting (already floored to an integer percentage, as the
plugin computes `math.floor(percent * 100)`), current page and page count. -/
structure DocCtx where
  title : Option String
  author : Option String
  isbn : Option String
  progress : Int
  current_page : Nat
  total_pages : Nat
deriving DecidableEq

/-- The payload table `syncStatus` assembles from the document context. -/
def mkPayload (ctx : DocCtx) (sid : Option String) (event_type : String) : LuaPayload :=
  { title := ctx.title.getD "Unknown", author := ctx.author.getD "Unknown",
    isbn := ctx.isbn, current_page := ctx.current_page,
    total_pages := ctx.total_pages, progress := ctx.progress,
    session_id := sid, event_type := event_type }

/-- `ReadingStatus:syncStatus(force, event_type)`: unless forced, return
without emitting while `now - last_sync_time < MIN_SYNC_GAP`; otherwise set
`last_sync_time = now` and hand the payload to `attemptSync`.  Returns the new
state and the payload emitted, if any. -/
def syncStatus (st : ReaderState) (ctx : DocCtx) (now : Int) (force : Bool)
    (event_type : String) : ReaderState × Option LuaPayload :=
  if !force && decide (now - st.last_sync_time < MIN_SYNC_GAP) then (st, none)
  else ({ st with last_sync_time := now },
        some (mkPayload ctx st.current_session_id event_type))

/-- `ReadingStatus:onPageUpdate(pageno)`: when `pageno` exceeds
`max_page_reached`, raise the watermark and call `syncStatus(false, "page_turn")`;
otherwise do nothing. -/
def onPageUpdate (st : ReaderState) (ctx : DocCtx) (now : Int)
    (pageno : Option Nat) : ReaderState × Option LuaPayload :=
  match pageno with
  | none => (st, none)
  | some p =>
    if st.max_page_reached < p then
      syncStatus { st with max_page_reached := p } ctx now false "page_turn"
    else (st, none)

/-- `ReadingStatus:onReaderReady()`: generate a session id, initialise
`max_page_reached` to the current page, and force a `session_start` sync. -/
def onReaderReady (st : ReaderState) (ctx : DocCtx) (now : Int)
    (newSid : String) : ReaderState × Option LuaPayload :=
  syncStatus { st with current_session_id := some newSid,
                       max_page_reached := ctx.current_page }
    ctx now true "session_start"

/-- Drive a list of timed page turns `(now, pageno)` through `onPageUpdate`,
building each turn's document context with `mk` and collecting the emitted
payloads in order. -/
def runPages (mk : Nat → DocCtx) (st : ReaderState) (turns : List (Int × Nat)) :
    ReaderState × List LuaPayload :=
  turns.foldl (fun acc t =>
    let r := onPageUpdate acc.1 (mk t.2) t.1 (some t.2)
    (r.1, acc.2 ++ r.2.toList)) (st, [])

/-- `enqueueEvent(payload)`: append the encoded payload as one more line of
the ndjson queue file. -/
def enqueueEvent (queue : List LuaPayload) (payload : LuaPayload) : List LuaPayload :=
  queue ++ [payload]

/-- `sendEventsToServer(events)`: the delivery succeeded exactly when the HTTP
status came back 200 (`status` is nil when the request never completed). -/
def sendEventsToServer (status : Option Nat) : Bool :=
  status == some 200

/-- `flushQueue()`: an empty queue is a trivial success; otherwise send the
whole queue and clear the file only when `sendEventsToServer` reports 200,
keeping it intact on any other outcome.  `status` is the HTTP status the
transport observed for this attempt.  Returns the queue after the attempt and
the boolean `flushQueue` returns. -/
def flushQueue (queue : List LuaPayload) (status : Option Nat) :
    List LuaPayload × Bool :=
  if queue.length = 0 then (queue, true)
  else if sendEventsToServer status then ([], true)
  else (queue, false)

/-! ## `src/unnamed/part_000`: the `/events` worker -/

/-- A row of the `books` table of `src/schema.sql`. -/
structure EBook where
  id : String
  isbn : Option String
  title : String
  author : Option String
  total_pages : Option Int
  created_at : String
deriving DecidableEq

/-- A row of the `reading_status` table (`book_id` is its primary key).
`progress_percent` is REAL in the schema, but every value the worker writes is
an integer (`progress || 0`), so it is carried as `Int`. -/
structure StatusRow where
  book_id : String
  current_page : Int
  progress_percent : Int
  last_read_at : String
deriving DecidableEq

/-- A row of the `sessions` table.  `id` is a TEXT primary key, which SQLite
allows to be NULL; `none` models SQL NULL. -/
structure SessionRow where
  id : Option String
  book_id : String
  started_at : Option String
  ended_at : Option String
  start_page : Option Int
  end_page : Option Int
  pages_read : Option Int
deriving DecidableEq

/-- A row of the `page_events` table. -/
structure PageEventRow where
  book_id : String
  page_number : Int
  progress_percent : Int
  session_id : Option String
  timestamp : String
deriving DecidableEq

/-- The D1 database of the `/events` worker. -/
structure EventsDB where
  books : List EBook
  reading_status : List StatusRow
  sessions : List SessionRow
  page_events : List PageEventRow
deriving DecidableEq

/-- A `/events` request body. -/
structure EventData where
  title : Option String
  author : Option String
  isbn : Option String
  current_page : Option Int
  total_pages : Option Int
  progress : Option Int
  session_id : Option String
  event_type : Option String
deriving DecidableEq

/-- SQL equality on nullable TEXT columns: `NULL = anything` is not true,
so a NULL never matches a `WHERE id = ?` comparison. -/
def sqlEqId : Option String → Option String → Bool
  | some a, some b => a == b
  | _, _ => false

/-- The book id `handleUpdate` derives for an event:
`generateBookId(cleanIsbn(data.isbn), title, author)`. -/
def bookIdOf (data : EventData) : String :=
  generateBookId (cleanIsbn data.isbn) data.title data.author

/-- `INSERT INTO reading_status ... ON CONFLICT(book_id) DO UPDATE`. -/
def upsertStatus (rs : List StatusRow) (bookId : String) (cp prog : Int)
    (now : String) : List StatusRow :=
  if rs.any (fun r => r.book_id == bookId) then
    rs.map (fun r =>
      if r.book_id == bookId then
        { r with current_page := cp, progress_percent := prog, last_read_at := now }
      else r)
  else rs ++ [{ book_id := bookId, current_page := cp, progress_percent := prog,
                last_read_at := now }]

/-- `src/unnamed/part_000` `handleUpdate`.  `now` is `new Date().toISOString()`.
A thrown validation error is `Except.error`, turned into HTTP 400 by the route. -/
def handleUpdate (db : EventsDB) (data : EventData) (now : String) :
    Except String EventsDB :=
  if jsTruthyStr data.title = false then Except.error "title is required"
  else
    let isbn := cleanIsbn data.isbn
    let bookId := bookIdOf data
    let books1 :=
      if db.books.any (fun b => b.id == bookId) then db.books
      else db.books ++ [{ id := bookId, isbn := isbn, title := data.title.getD "",
                          author := jsOrNullStr data.author,
                          total_pages := jsOrNullInt data.total_pages,
                          created_at := now }]
    let rs1 := upsertStatus db.reading_status bookId
      (jsOrZeroInt data.current_page) (jsOrZeroInt data.progress) now
    let sess1 :=
      if data.event_type == some "session_start" then
        if db.sessions.any (fun s => sqlEqId s.id data.session_id) then db.sessions
        else db.sessions ++ [{ id := data.session_id, book_id := bookId,
                               started_at := some now, ended_at := none,
                               start_page := some (jsOrZeroInt data.current_page),
                               end_page := none, pages_read := none }]
      else if data.event_type == some "session_end" then
        let found := db.sessions.find? (fun s => sqlEqId s.id data.session_id)
        let pagesRead :=
          max 0 (jsOrZeroInt data.current_page -
                 jsOrZeroInt (found.bind SessionRow.start_page))
        db.sessions.map (fun s =>
          if sqlEqId s.id data.session_id then
            { s with ended_at := some now,
                     end_page := some (jsOrZeroInt data.current_page),
                     pages_read := some pagesRead }
          else s)
      else db.sessions
    let pe1 :=
      if jsTruthyStr data.session_id then
        db.page_events ++ [{ book_id := bookId,
                             page_number := jsOrZeroInt data.current_page,
                             progress_percent := jsOrZeroInt data.progress,
                             session_id := data.session_id, timestamp := now }]
      else db.page_events
    Except.ok { books := books1, reading_status := rs1, sessions := sess1,
                page_events := pe1 }

/-! ## Concrete fixtures used by witnesses and counterexamples -/

/-- A fresh `/sync-stats` database. -/
def emptySyncDB : SyncDB :=
  { books := [], page_stat_data := [], sync_state := [], next_row_id := 1 }

/-- A well-formed `/sync-stats` batch: one book, two page stats. -/
def c1Data : SyncData :=
  { book := some { md5 := some "abc123", title := some "The Book",
                   authors := some "A. Author", pages := some 100 },
    page_stats := some [{ page := 5, start_time := 1000, duration := 30, total_pages := some 100 },
                        { page := 6, start_time := 1042, duration := 45, total_pages := some 100 }],
    last_sync_time := none }

/-- A `/sync-stats` batch whose `book` object lacks `md5`. -/
def c5Data : SyncData :=
  { book := some { md5 := none, title := some "The Book", authors := none, pages := none },
    page_stats := some [{ page := 5, start_time := 1000, duration := 30, total_pages := some 100 }],
    last_sync_time := none }

/-- An environment whose `AUTH_TOKEN` binding is configured. -/
def tokenEnv : Env := { AUTH_TOKEN := some "sekrit" }

/-- A queued client payload. -/
def samplePayload : LuaPayload :=
  { title := "The Book", author := "A. Author", isbn := none, current_page := 7,
    total_pages := 100, progress := 7, session_id := some "sess-1",
    event_type := "page_turn" }

/-- 101 distinct client payloads, current_page 0 through 100. -/
def c4Batch : List LuaPayload :=
  (List.range 101).map (fun n => { samplePayload with current_page := n })

/-- Document context for reading page `p` of a fixed test book. -/
def pageCtx (p : Nat) : DocCtx :=
  { title := some "The Book", author := some "A. Author", isbn := none,
    progress := 0, current_page := p, total_pages := 100 }

/-- The reader state right after opening the test book at page 1 at time 0
(`onReaderReady` forces a `session_start` sync, so `last_sync_time = 0`). -/
def c6Session : ReaderState :=
  (onReaderReady initialReaderState (pageCtx 1) 0 "sess-1").1

/-- A mid-session reader state: watermark at page 1, last sync at time 100. -/
def c6Mid : ReaderState :=
  { last_sync_time := 100, current_session_id := some "sess-1", max_page_reached := 1 }

/-- A reader state whose last sync was at time 0. -/
def c7State : ReaderState :=
  { last_sync_time := 0, current_session_id := some "sess-1", max_page_reached := 1 }

/-- A fresh `/events` database. -/
def emptyEventsDB : EventsDB :=
  { books := [], reading_status := [], sessions := [], page_events := [] }

/-- A `session_end` event for a session that was never started. -/
def c2Event : EventData :=
  { title := some "The Book", author := some "A. Author", isbn := none,
    current_page := some 40, total_pages := some 100, progress := some 40,
    session_id := some "lost-session", event_type := some "session_end" }

/-- An `/events` database holding one open session that started at page 50. -/
def c8DB : EventsDB :=
  { books := [], reading_status := [],
    sessions := [{ id := some "s8", book_id := "b1", started_at := some "t0",
                   ended_at := none, start_page := some 50, end_page := none,
                   pages_read := none }],
    page_events := [] }

/-- A `session_end` at page 40 for the session of `c8DB` (a page regression). -/
def c8Event : EventData :=
  { title := some "The Book", author := some "A. Author", isbn := none,
    current_page := some 40, total_pages := some 100, progress := some 40,
    session_id := some "s8", event_type := some "session_end" }

/-- Two `/events` bodies: identical title and author, no ISBN, different pages. -/
def c9Event1 : EventData :=
  { title := some "Dune", author := some "Frank Herbert", isbn := none,
    current_page := some 10, total_pages := some 600, progress := some 1,
    session_id := some "sA", event_type := some "page_turn" }

/-- Second request with the same identity material as `c9Event1`. -/
def c9Event2 : EventData :=
  { title := some "Dune", author := some "Frank Herbert", isbn := none,
    current_page := some 20, total_pages := some 600, progress := some 3,
    session_id := some "sB", event_type := some "page_turn" }

/-- The book id `handleSyncStats` ends up using for a request with book md5
`md5`: the id of the first stored book with that md5, or the fresh
autoincrement id when none exists. -/
def resolvedBookId (db : SyncDB) (md5 : String) : Nat :=
  match findBookByMd5 db.books md5 with
  | some b => b.id
  | none => db.next_row_id

/-- The `page_stat_data` table after `handleSyncStats` processes an optional
`page_stats` array for book `idb`. -/
def pageDataAfter (rows : List PageStatRow) (idb : Nat) :
    Option (List PageStat) → List PageStatRow
  | some stats => if stats.length > 0 then insertPageStats rows idb stats else rows
  | none => rows

/-! ## General helper lemmas -/

theorem find?_map_of_pred_inv {α : Type} (g : α → α) (p : α → Bool)
    (h : ∀ x, p (g x) = p x) (l : List α) :
    (l.map g).find? p = (l.find? p).map g := by
  induction l with
  | nil => rfl
  | cons a t ih =>
    simp only [List.map_cons, List.find?_cons, h a]
    cases p a <;> simp [ih]

theorem map_if_id {α : Type} (p : α → Bool) (f : α → α) (l : List α)
    (h : ∀ x ∈ l, p x = false) :
    l.map (fun x => if p x then f x else x) = l := by
  induction l with
  | nil => rfl
  | cons a t ih =>
    simp only [List.map_cons, h a (List.mem_cons_self a t), if_neg, Bool.false_eq_true,
      not_false_eq_true, List.cons.injEq, true_and]
    exact ih (fun x hx => h x (List.mem_cons_of_mem a hx))

theorem enqueue_foldl (ps : List LuaPayload) (q : List LuaPayload) :
    ps.foldl enqueueEvent q = q ++ ps := by
  induction ps generalizing q with
  | nil => simp
  | cons a t ih => simp [enqueueEvent, ih, List.append_assoc]

/-! ## C3: delivery outcomes and queue retention -/

/-- Claim C3: The claim states that a `Rejected` outcome (e.g. HTTP 400) clears the
queued batch.  Counterexample: a one-payload queue whose delivery attempt comes
back with status 400 is retained unchanged (and the flush reports failure), not
cleared. -/
theorem c3_rejected_clears_counterexample :
    flushQueue [samplePayload] (some 400) = ([samplePayload], false) ∧
      [samplePayload] ≠ ([] : List LuaPayload) := by
  constructor
  · rfl
  · decide

/-- Claim C3 (amended): The client does not distinguish `Rejected` from
`Unreachable`: a nonempty queue is cleared by `flushQueue` exactly when the
delivery attempt's HTTP status is 200; every other outcome — 4xx rejection,
5xx, or no response at all — retains the whole batch for a later retry. -/
theorem c3_clears_iff_status_200 (q : List LuaPayload) (s : Option Nat)
    (hq : q ≠ []) :
    (flushQueue q s).1 = [] ↔ s = some 200 := by
  have hlen : ¬ q.length = 0 := by
    simpa [List.length_eq_zero] using hq
  unfold flushQueue sendEventsToServer
  rw [if_neg hlen]
  by_cases hs : s = some 200
  · simp [hs]
  · have : (s == some 200) = false := by
      simpa [beq_iff_eq] using hs
    simp [this, hq, hs]

/-- Claim C3 witness: a queue holding one payload is cleared on a 200 response. -/
theorem c3_clears_iff_status_200_witness :
    (flushQueue [samplePayload] (some 200)).1 = [] :=
  (c3_clears_iff_status_200 [samplePayload] (some 200) (by decide)).mpr rfl

/-! ## C4: queue capacity -/

/-- Claim C4: The claim states a capacity bound `C` (the spec's example is 100) with
oldest-first eviction, so 101 enqueues leave 100 records.  Counterexample:
enqueuing 101 records into an empty queue leaves all 101. -/
theorem c4_capacity_counterexample :
    (c4Batch.foldl enqueueEvent []).length = 101 ∧ (101 : Nat) ≠ 100 := by
  constructor
  · rw [enqueue_foldl]
    simp [c4Batch]
  · decide

/-- Claim C4 (amended): The offline queue is unbounded: `enqueueEvent` always
appends to the ndjson file and never evicts, so enqueuing any batch leaves the
old queue followed by the whole batch — in particular 101 enqueues leave 101
records, with nothing missing. -/
theorem c4_queue_unbounded :
    (∀ (q ps : List LuaPayload), ps.foldl enqueueEvent q = q ++ ps) ∧
      (c4Batch.foldl enqueueEvent []).length = 101 := by
  refine ⟨fun q ps => enqueue_foldl ps q, ?_⟩
  rw [enqueue_foldl]
  simp [c4Batch]

/-! ## C6: forward-only progress events -/

/-- Claim C6: The claim states a page-turn to `p` emits an event if and only if
`p` exceeds the watermark, so the session sequence [1, 5, 3, 8] always emits
exactly two events.  Counterexample: the same sequence turned within the
5-second `MIN_SYNC_GAP` throttle emits no event at all — at page 5 the
watermark has been passed, yet `syncStatus` drops the non-forced sync. -/
theorem c6_forward_only_counterexample :
    (runPages pageCtx c6Session [(1, 1), (2, 5), (3, 3), (4, 8)]).2 = [] ∧
      (onPageUpdate c6Mid (pageCtx 5) 102 (some 5)).2 = none ∧
      c6Mid.max_page_reached < 5 := by
  refine ⟨by decide, by decide, by decide⟩

/-- Claim C6 (amended): A page-turn to `p` emits a `page_turn` event exactly when
`p` exceeds the session watermark AND at least `MIN_SYNC_GAP` seconds have
passed since the last accepted sync; the watermark itself rises to `p` on any
forward turn, throttled or not, and regressions emit nothing and leave the
watermark alone.  With turns spaced beyond the gap, the sequence [1, 5, 3, 8]
after opening at page 1 emits exactly the two events at pages 5 and 8. -/
theorem c6_forward_only_progress :
    ((runPages pageCtx c6Session [(10, 1), (20, 5), (30, 3), (40, 8)]).2.map
        LuaPayload.current_page = [5, 8]) ∧
    (∀ (st : ReaderState) (ctx : DocCtx) (now : Int) (p : Nat),
      ((onPageUpdate st ctx now (some p)).2.isSome =
        (decide (st.max_page_reached < p) &&
         decide (MIN_SYNC_GAP ≤ now - st.last_sync_time))) ∧
      ((onPageUpdate st ctx now (some p)).1.max_page_reached =
        if st.max_page_reached < p then p else st.max_page_reached)) ∧
    (∀ (st : ReaderState) (ctx : DocCtx) (now : Int),
      onPageUpdate st ctx now none = (st, none)) := by
  refine ⟨by decide, ?_, fun st ctx now => rfl⟩
  intro st ctx now p
  unfold onPageUpdate syncStatus
  by_cases h1 : st.max_page_reached < p
  · by_cases h2 : now - st.last_sync_time < MIN_SYNC_GAP
    · have h3 : ¬ MIN_SYNC_GAP ≤ now - st.last_sync_time := by omega
      simp [h1, h2, h3]
    · have h3 : MIN_SYNC_GAP ≤ now - st.last_sync_time := by omega
      simp [h1, h2, h3]
  · simp [h1]

/-! ## C7: the sync plausibility gate -/

/-- Claim C7: The claim states the plausibility filter accepts a dwell exactly when
it lies in [5 s, 90 s], so a 91-second gap is discarded.  Counterexample: with
the last sync 91 seconds ago, a non-forced `syncStatus` is accepted — the code
has only the `MIN_SYNC_GAP` lower bound and no upper bound. -/
theorem c7_dwell_upper_bound_counterexample :
    ((syncStatus c7State (pageCtx 2) 91 false "page_turn").2).isSome = true ∧
      ¬ ((91 : Int) ≤ 90) := by
  refine ⟨by decide, by decide⟩

/-- Claim C7 (amended): The gate in `syncStatus` is one-sided: a non-forced sync is
accepted exactly when at least `MIN_SYNC_GAP = 5` seconds have elapsed since
the last accepted sync (a forced sync always passes).  The boundaries: a
3-second gap is discarded without failing the transition, while 5-second,
90-second and 91-second gaps are all accepted — there is no 90-second upper
bound in the code. -/
theorem c7_sync_gate_boundaries :
    (∀ (st : ReaderState) (ctx : DocCtx) (now : Int) (force : Bool) (et : String),
      ((syncStatus st ctx now force et).2).isSome =
        (force || decide (MIN_SYNC_GAP ≤ now - st.last_sync_time))) ∧
    ((syncStatus c7State (pageCtx 2) 3 false "page_turn").2 = none) ∧
    (((syncStatus c7State (pageCtx 2) 5 false "page_turn").2).isSome = true) ∧
    (((syncStatus c7State (pageCtx 2) 90 false "page_turn").2).isSome = true) := by
  refine ⟨?_, by decide, by decide, by decide⟩
  intro st ctx now force et
  unfold syncStatus
  cases force with
  | true => simp
  | false =>
    by_cases h2 : now - st.last_sync_time < MIN_SYNC_GAP
    · have h3 : ¬ MIN_SYNC_GAP ≤ now - st.last_sync_time := by omega
      simp [h2, h3]
    · have h3 : MIN_SYNC_GAP ≤ now - st.last_sync_time := by omega
      simp [h2, h3]

/-! ## C2: session_end with no stored start -/

/-- Claim C2: The claim states that a `session_end` whose session id has no stored
`session_start` still records an end-only session row.  Counterexample:
ingesting such an event into an empty database succeeds but leaves the
`sessions` table empty — the `UPDATE ... WHERE id = ?` matches zero rows and
no end-only row is ever inserted. -/
theorem c2_end_only_row_counterexample :
    (handleUpdate emptyEventsDB c2Event "2024-01-01T00:00:00Z").map
        EventsDB.sessions = Except.ok [] ∧
      (0 : Nat) ≠ 1 := by
  refine ⟨rfl, by decide⟩

/-- Claim C2 (amended): A `session_end` for a session id with no stored session
does not crash ingestion — `handleUpdate` still succeeds (and still updates
the book, reading-status and page-event tables) — but it records nothing in
the `sessions` table: the `UPDATE` silently matches zero rows, so the table
is left exactly as it was and no end-only row exists. -/
theorem c2_session_end_without_start (db : EventsDB) (data : EventData)
    (now : String)
    (ht : jsTruthyStr data.title = true)
    (he : data.event_type = some "session_end")
    (hs : ∀ s ∈ db.sessions, sqlEqId s.id data.session_id = false) :
    ∃ db2, handleUpdate db data now = Except.ok db2 ∧ db2.sessions = db.sessions := by
  have hstart : (data.event_type == some "session_start") = false := by
    rw [he]; decide
  have hend : (data.event_type == some "session_end") = true := by
    rw [he]; decide
  unfold handleUpdate
  rw [ht]
  simp only [Bool.true_eq_false, if_false, hstart, hend, if_true, Bool.false_eq_true,
    ite_false, ite_true]
  exact ⟨_, rfl, map_if_id _ _ _ hs⟩

/-- Claim C2 witness: the no-start `session_end` fixture on the empty database. -/
theorem c2_session_end_without_start_witness :
    ∃ db2, handleUpdate emptyEventsDB c2Event "2024-01-01T00:00:00Z" = Except.ok db2 ∧
      db2.sessions = emptyEventsDB.sessions :=
  c2_session_end_without_start emptyEventsDB c2Event "2024-01-01T00:00:00Z"
    (by decide) rfl (by intro s hs; cases hs)

/-! ## C8: pages_read is clamped at zero -/

/-- Claim C8: For a `session_end` whose session id matches a stored session, the
updated row's `pages_read` is `max(0, end_page − start_page)` — in particular
a regression (end page below start page) stores 0, never a negative count. -/
theorem c8_pages_read_clamp (db : EventsDB) (data : EventData) (now : String)
    (sid : String) (sess : SessionRow)
    (ht : jsTruthyStr data.title = true)
    (he : data.event_type = some "session_end")
    (hsid : data.session_id = some sid)
    (hfind : db.sessions.find? (fun s => sqlEqId s.id (some sid)) = some sess) :
    (handleUpdate db data now).map
        (fun d => (d.sessions.find? (fun s => sqlEqId s.id (some sid))).map
          SessionRow.pages_read) =
      Except.ok (some (some
        (max 0 (jsOrZeroInt data.current_page - jsOrZeroInt sess.start_page)))) := by
  have hstart : (data.event_type == some "session_start") = false := by
    rw [he]; decide
  have hend : (data.event_type == some "session_end") = true := by
    rw [he]; decide
  unfold handleUpdate
  rw [ht]
  simp only [Bool.true_eq_false, if_false, hstart, hend, if_true, Bool.false_eq_true,
    ite_false, ite_true, Except.map, hsid]
  rw [find?_map_of_pred_inv _ _
    (fun x => by by_cases hx : sqlEqId x.id (some sid) = true <;> simp [hx]), hfind]
  have hp : sqlEqId sess.id (some sid) = true := by
    simpa using List.find?_some hfind
  simp [hp]

/-- Claim C8 witness: the regression fixture — session started at page 50, ended at
page 40 — stores `pages_read = 0`. -/
theorem c8_pages_read_clamp_witness :
    (handleUpdate c8DB c8Event "2024-01-01T00:00:00Z").map
        (fun d => (d.sessions.find? (fun s => sqlEqId s.id (some "s8"))).map
          SessionRow.pages_read) =
      Except.ok (some (some 0)) := by
  have h := c8_pages_read_clamp c8DB c8Event "2024-01-01T00:00:00Z" "s8"
    { id := some "s8", book_id := "b1", started_at := some "t0", ended_at := none,
      start_page := some 50, end_page := none, pages_read := none }
    (by decide) rfl rfl (by decide)
  simpa using h

/-! ## C5: validation failures mutate nothing and surface as 400 -/

/-- Claim C5: An authorized `/sync-stats` request whose `book` object is missing a
required field — `md5` or `title` absent (or empty, which JS truthiness also
rejects) — is answered with HTTP 400 and the database is returned exactly as
it was: `handleSyncStats` throws before its first database statement. -/
theorem c5_validation_rejects_without_mutation (env : Env) (hdr : Option String)
    (db : SyncDB) (data : SyncData) (now : Int) (cover : Option String)
    (hauth : withAuthCheck env hdr = true)
    (hbad : jsTruthyStr (data.book.bind BookPayload.md5) = false ∨
            jsTruthyStr (data.book.bind BookPayload.title) = false) :
    syncStatsRoute env hdr db data now cover = (400, db) := by
  unfold syncStatsRoute
  rw [hauth, if_pos rfl]
  cases hb : data.book with
  | none => simp [handleSyncStats, hb]
  | some book =>
    rw [hb] at hbad
    simp only [Option.some_bind] at hbad
    cases hmd5 : jsTruthyStr book.md5 with
    | false => simp [handleSyncStats, hb, hmd5]
    | true =>
      have htitle : jsTruthyStr book.title = false := by
        cases hbad with
        | inl h => rw [hmd5] at h; cases h
        | inr h => exact h
      simp [handleSyncStats, hb, hmd5, htitle]

/-- Claim C5 witness: an authorized request whose `book` lacks `md5` leaves the empty
database untouched and is answered 400. -/
theorem c5_validation_witness :
    syncStatsRoute tokenEnv (some "Bearer sekrit") emptySyncDB c5Data 500 none =
      (400, emptySyncDB) :=
  c5_validation_rejects_without_mutation tokenEnv (some "Bearer sekrit")
    emptySyncDB c5Data 500 none (by decide) (Or.inl (by decide))

/-! ## C10: authentication fails closed -/

/-- Claim C10: With `AUTH_TOKEN` unset or empty, every `POST /sync-stats` is
answered 401 no matter what `Authorization` header is presented; the auth
guard passes — and only then is the handler run — exactly when `AUTH_TOKEN`
is set to a nonempty token and the header is literally `Bearer ` followed by
that token; whenever the guard fails the route answers 401 with the database
untouched. -/
theorem c10_auth_fails_closed (env : Env) (hdr : Option String) :
    ((env.AUTH_TOKEN = none ∨ env.AUTH_TOKEN = some "") →
      ∀ (db : SyncDB) (data : SyncData) (now : Int) (cover : Option String),
        syncStatsRoute env hdr db data now cover = (401, db)) ∧
    (withAuthCheck env hdr = true ↔
      ∃ t, env.AUTH_TOKEN = some t ∧ t ≠ "" ∧ hdr = some ("Bearer " ++ t)) ∧
    (withAuthCheck env hdr = false →
      ∀ (db : SyncDB) (data : SyncData) (now : Int) (cover : Option String),
        syncStatsRoute env hdr db data now cover = (401, db)) := by
  have hroute : withAuthCheck env hdr = false →
      ∀ (db : SyncDB) (data : SyncData) (now : Int) (cover : Option String),
        syncStatsRoute env hdr db data now cover = (401, db) := by
    intro hf db data now cover
    unfold syncStatsRoute
    rw [hf]
    simp
  refine ⟨?_, ?_, hroute⟩
  · intro hempty db data now cover
    apply hroute _ db data now cover
    cases hempty with
    | inl h => simp [withAuthCheck, h]
    | inr h => simp [withAuthCheck, h]
  · unfold withAuthCheck
    cases htok : env.AUTH_TOKEN with
    | none => simp
    | some t =>
      constructor
      · intro h
        simp only [Bool.and_eq_true, Bool.not_eq_true', beq_eq_false_iff_ne,
          beq_iff_eq] at h
        exact ⟨t, rfl, h.1, h.2⟩
      · rintro ⟨t', ht', hne, hh⟩
        cases Option.some.inj ht'
        simp [hh, hne]

/-- Claim C10 witness: with the token configured, the exact `Bearer` header passes
the guard. -/
theorem c10_auth_fails_closed_witness :
    withAuthCheck tokenEnv (some "Bearer sekrit") = true :=
  (c10_auth_fails_closed tokenEnv (some "Bearer sekrit")).2.1.mpr
    ⟨"sekrit", rfl, by decide, rfl⟩

/-! ## C9: book identity stability -/

theorem cleanIsbn_ne_empty (o : Option String) (s : String)
    (h : cleanIsbn o = some s) : (s == "") = false := by
  cases o with
  | none => cases h
  | some raw =>
    unfold cleanIsbn at h
    dsimp only at h
    split at h
    · cases h
    · next hne =>
      cases Option.some.inj h
      simpa using hne

/-- Claim C9: The book identity key is a pure function of the event's identity
material: two requests carrying the same title and author and no ISBN resolve
to the same id (the hash of the lower-cased `title:author` string), and when
a normalized ISBN is present the id is exactly that ISBN. -/
theorem c9_book_identity_stable :
    (∀ d1 d2 : EventData, d1.isbn = none → d2.isbn = none →
      d1.title = d2.title → d1.author = d2.author → bookIdOf d1 = bookIdOf d2) ∧
    (∀ (d : EventData) (s : String), cleanIsbn d.isbn = some s → bookIdOf d = s) := by
  constructor
  · intro d1 d2 h1 h2 ht ha
    unfold bookIdOf
    rw [h1, h2, ht, ha]
  · intro d s h
    unfold bookIdOf generateBookId
    rw [h]
    simp [cleanIsbn_ne_empty d.isbn s h]

/-- Claim C9 witness: the two fixture requests — same title and author, no ISBN,
different pages and sessions — get the same book id. -/
theorem c9_book_identity_stable_witness :
    bookIdOf c9Event1 = bookIdOf c9Event2 :=
  c9_book_identity_stable.1 c9Event1 c9Event2 rfl rfl rfl rfl

/-! ## C1: replaying a batch is idempotent on page telemetry -/

theorem pageKeyPresent_insertOrIgnore (rows : List PageStatRow) (idb : Nat)
    (s : PageStat) (idb' : Nat) (p t : Int)
    (h : pageKeyPresent rows idb' p t = true) :
    pageKeyPresent (insertOrIgnorePageStat rows idb s) idb' p t = true := by
  unfold insertOrIgnorePageStat
  split
  · exact h
  · unfold pageKeyPresent at h ⊢
    simp [List.any_append, h]

theorem pageKeyPresent_insert_self (rows : List PageStatRow) (idb : Nat)
    (s : PageStat) :
    pageKeyPresent (insertOrIgnorePageStat rows idb s) idb s.page s.start_time = true := by
  unfold insertOrIgnorePageStat
  split
  · next h => exact h
  · unfold pageKeyPresent
    simp [List.any_append]

theorem pageKeyPresent_fold_mono (stats : List PageStat) (rows : List PageStatRow)
    (idb idb' : Nat) (p t : Int) (h : pageKeyPresent rows idb' p t = true) :
    pageKeyPresent (insertPageStats rows idb stats) idb' p t = true := by
  induction stats generalizing rows with
  | nil => exact h
  | cons a rest ih =>
    show pageKeyPresent (insertPageStats (insertOrIgnorePageStat rows idb a) idb rest)
      idb' p t = true
    exact ih _ (pageKeyPresent_insertOrIgnore rows idb a idb' p t h)

theorem keys_present_after_insert (stats : List PageStat) (rows : List PageStatRow)
    (idb : Nat) :
    ∀ s ∈ stats,
      pageKeyPresent (insertPageStats rows idb stats) idb s.page s.start_time = true := by
  induction stats generalizing rows with
  | nil => intro s hs; cases hs
  | cons a rest ih =>
    intro s hs
    show pageKeyPresent (insertPageStats (insertOrIgnorePageStat rows idb a) idb rest)
      idb s.page s.start_time = true
    cases hs with
    | head =>
      exact pageKeyPresent_fold_mono rest _ idb idb _ _
        (pageKeyPresent_insert_self rows idb a)
    | tail _ hmem => exact ih _ s hmem

theorem insertPageStats_no_op (stats : List PageStat) (rows : List PageStatRow)
    (idb : Nat) :
    (∀ s ∈ stats, pageKeyPresent rows idb s.page s.start_time = true) →
    insertPageStats rows idb stats = rows := by
  induction stats with
  | nil => intro _; rfl
  | cons a rest ih =>
    intro h
    have ha : insertOrIgnorePageStat rows idb a = rows := by
      simp [insertOrIgnorePageStat, h a (List.mem_cons_self a rest)]
    show insertPageStats (insertOrIgnorePageStat rows idb a) idb rest = rows
    rw [ha]
    exact ih (fun s hs => h s (List.mem_cons_of_mem a hs))

theorem pageDataAfter_idem (rows : List PageStatRow) (idb : Nat)
    (ps : Option (List PageStat)) :
    pageDataAfter (pageDataAfter rows idb ps) idb ps = pageDataAfter rows idb ps := by
  cases ps with
  | none => rfl
  | some stats =>
    simp only [pageDataAfter]
    by_cases hlen : stats.length > 0
    · simp only [if_pos hlen]
      exact insertPageStats_no_op stats _ idb (keys_present_after_insert stats rows idb)
    · simp only [if_neg hlen]

theorem find_books_map (g : SyncBook → SyncBook) (hg : ∀ x, (g x).md5 = x.md5)
    (books : List SyncBook) (md5 : String) :
    findBookByMd5 (books.map g) md5 = (findBookByMd5 books md5).map g :=
  find?_map_of_pred_inv g (fun b => b.md5 == md5) (fun x => by simp only [hg x]) books

theorem exists_find_id_map (books : List SyncBook) (md5 : String)
    (g : SyncBook → SyncBook) (R : Nat)
    (hg : ∀ x, (g x).md5 = x.md5 ∧ (g x).id = x.id)
    (h : ∃ b, findBookByMd5 books md5 = some b ∧ b.id = R) :
    ∃ b1, findBookByMd5 (books.map g) md5 = some b1 ∧ b1.id = R := by
  obtain ⟨b, hb, hid⟩ := h
  refine ⟨g b, ?_, by rw [(hg b).2, hid]⟩
  rw [find_books_map g (fun x => (hg x).1), hb]
  rfl

theorem exists_find_id_append (books : List SyncBook) (md5 : String) (nb : SyncBook)
    (hex : findBookByMd5 books md5 = none) (hmd : nb.md5 = md5) (R : Nat)
    (hid : nb.id = R) :
    ∃ b1, findBookByMd5 (books ++ [nb]) md5 = some b1 ∧ b1.id = R := by
  refine ⟨nb, ?_, hid⟩
  unfold findBookByMd5 at hex ⊢
  rw [List.find?_append, hex]
  simp [List.find?_cons, hmd]

/-- One `handleSyncStats` run on a valid body: it succeeds, the stored book
with the request's md5 afterwards carries the id the run used for its page
inserts (`resolvedBookId`), and the `page_stat_data` table afterwards is
exactly `pageDataAfter` of the table before. -/
theorem handleSyncStats_run (db : SyncDB) (data : SyncData) (now : Int)
    (cover : Option String) (book : BookPayload) (md5 : String)
    (hb : data.book = some book) (hm : book.md5 = some md5)
    (hm0 : (md5 == "") = false) (ht : jsTruthyStr book.title = true) :
    ∃ db1, handleSyncStats db data now cover = Except.ok db1 ∧
      (∃ b1, findBookByMd5 db1.books md5 = some b1 ∧ b1.id = resolvedBookId db md5) ∧
      db1.page_stat_data =
        pageDataAfter db.page_stat_data (resolvedBookId db md5) data.page_stats := by
  have hmd5T : jsTruthyStr book.md5 = true := by
    rw [hm]; simp [jsTruthyStr, hm0]
  have hget : book.md5.getD "" = md5 := by rw [hm]; rfl
  unfold handleSyncStats
  rw [hb]
  dsimp only
  rw [if_neg (by simp [hmd5T]), if_neg (by simp [ht]), hget]
  cases hex : findBookByMd5 db.books md5 with
  | some b =>
    have hR : resolvedBookId db md5 = b.id := by
      unfold resolvedBookId; rw [hex]
    cases hps : data.page_stats with
    | none =>
      dsimp only
      refine ⟨_, rfl, ?_, ?_⟩
      · dsimp only
        apply exists_find_id_map
        · intro x; constructor <;> (dsimp only; split <;> rfl)
        · exact ⟨b, hex, hR.symm⟩
      · rfl
    | some stats =>
      dsimp only
      by_cases hlen : stats.length > 0
      · simp only [if_pos hlen, pageDataAfter]
        refine ⟨_, rfl, ?_, ?_⟩
        · dsimp only
          unfold updateBookTotals
          apply exists_find_id_map
          · intro x; constructor <;> (dsimp only; split <;> rfl)
          · apply exists_find_id_map
            · intro x; constructor <;> (dsimp only; split <;> rfl)
            · exact ⟨b, hex, hR.symm⟩
        · dsimp only
          rw [hR]
      · simp only [if_neg hlen, pageDataAfter]
        refine ⟨_, rfl, ?_, ?_⟩
        · dsimp only
          apply exists_find_id_map
          · intro x; constructor <;> (dsimp only; split <;> rfl)
          · exact ⟨b, hex, hR.symm⟩
        · rfl
  | none =>
    have hR : resolvedBookId db md5 = db.next_row_id := by
      unfold resolvedBookId; rw [hex]
    cases hps : data.page_stats with
    | none =>
      dsimp only
      refine ⟨_, rfl, ?_, ?_⟩
      · dsimp only
        exact exists_find_id_append db.books md5 _ hex rfl _ hR.symm
      · rfl
    | some stats =>
      dsimp only
      by_cases hlen : stats.length > 0
      · simp only [if_pos hlen, pageDataAfter]
        refine ⟨_, rfl, ?_, ?_⟩
        · dsimp only
          unfold updateBookTotals
          apply exists_find_id_map
          · intro x; constructor <;> (dsimp only; split <;> rfl)
          · exact exists_find_id_append db.books md5 _ hex rfl _ hR.symm
        · dsimp only
          rw [hR]
      · simp only [if_neg hlen, pageDataAfter]
        refine ⟨_, rfl, ?_, ?_⟩
        · dsimp only
          exact exists_find_id_append db.books md5 _ hex rfl _ hR.symm
        · rfl

/-- Claim C1: Ingesting the same `/sync-stats` batch twice leaves the
`page_stat_data` table — and hence its row count — exactly as one ingestion
left it: on the replay every row's `(book, page, timestamp)` key is already
present, so each `INSERT OR IGNORE` is ignored rather than inserted again.
The wall-clock times and cover-fetch results of the two requests are
arbitrary and may differ. -/
theorem c1_replay_idempotent (db : SyncDB) (data : SyncData) (now1 now2 : Int)
    (cov1 cov2 : Option String) (book : BookPayload) (md5 : String)
    (hb : data.book = some book) (hm : book.md5 = some md5)
    (hm0 : (md5 == "") = false) (ht : jsTruthyStr book.title = true) :
    ∃ db1 db2, handleSyncStats db data now1 cov1 = Except.ok db1 ∧
      handleSyncStats db1 data now2 cov2 = Except.ok db2 ∧
      db2.page_stat_data = db1.page_stat_data := by
  obtain ⟨db1, h1, ⟨b1, hfind1, hid1⟩, hpd1⟩ :=
    handleSyncStats_run db data now1 cov1 book md5 hb hm hm0 ht
  obtain ⟨db2, h2, _, hpd2⟩ :=
    handleSyncStats_run db1 data now2 cov2 book md5 hb hm hm0 ht
  refine ⟨db1, db2, h1, h2, ?_⟩
  have hres : resolvedBookId db1 md5 = resolvedBookId db md5 := by
    have : resolvedBookId db1 md5 = b1.id := by
      unfold resolvedBookId; rw [hfind1]
    rw [this, hid1]
  rw [hpd2, hres, hpd1]
  exact pageDataAfter_idem db.page_stat_data (resolvedBookId db md5) data.page_stats

/-- Claim C1 witness: the two-page fixture batch ingested twice into the empty
database; the replay leaves the page telemetry exactly as the first run. -/
theorem c1_replay_idempotent_witness :
    ∃ db1 db2, handleSyncStats emptySyncDB c1Data 500 none = Except.ok db1 ∧
      handleSyncStats db1 c1Data 600 none = Except.ok db2 ∧
      db2.page_stat_data = db1.page_stat_data :=
  c1_replay_idempotent emptySyncDB c1Data 500 600 none none
    { md5 := some "abc123", title := some "The Book",
      authors := some "A. Author", pages := some 100 }
    "abc123" rfl rfl (by decide) (by decide)
